import Mathlib

/-!
Verification of the crawl orchestration engine of the devops-custom-roadmap
repository: the admin job-control API routes (start, status, custom crawl)
and the content store's URL-uniqueness constraint, embedded shallowly.
-/

namespace CrawlSpec

/-! Section: Substring search (JavaScript String.prototype.includes) -/

/-- Whether `needle` occurs at the very front of `hay` (character by character). -/
def listStartsWith : List Char → List Char → Bool
  | _, [] => true
  | [], _ :: _ => false
  | c :: cs, d :: ds => c == d && listStartsWith cs ds

/-- Whether `needle` occurs anywhere in `hay`, as in JS `hay.includes(needle)`. -/
def listHasSub (needle : List Char) : List Char → Bool
  | [] => needle.isEmpty
  | c :: rest => listStartsWith (c :: rest) needle || listHasSub needle rest

/-- `containsSubstr s pat` models the JavaScript call `s.includes(pat)`. -/
def containsSubstr (s pat : String) : Bool :=
  listHasSub pat.data s.data

/-! Section: The CrawlJob record (the entries of the module-level `activeCrawls` map) -/

/-- Job status, `"running" | "completed" | "failed"` in the route's map entry type. -/
inductive JobStatus
  | running
  | completed
  | failed
deriving DecidableEq, Repr

/-- The stats bundle written by the close handler of the start route. -/
structure CrawlStats where
  total_processed : Nat
  successful : Nat
  failed : Nat
  duplicates : Nat
deriving DecidableEq, Repr

/-- One entry of the `activeCrawls` map in the crawl-start route. -/
structure CrawlJob where
  jobId : String
  operation : String
  status : JobStatus
  progress : Nat
  message : String
  stats : Option CrawlStats
  error : Option String
deriving DecidableEq, Repr

/-- The job record registered by `activeCrawls.set(jobId, ...)` right after the
operation is validated: status running, progress 0. -/
def initJob (jobId operation : String) : CrawlJob :=
  { jobId := jobId
    operation := operation
    status := .running
    progress := 0
    message := "Starting " ++ operation ++ "..."
    stats := none
    error := none }

/-! Section: The worker event handlers of the start route -/

/-- The `pythonProcess.stdout.on("data")` handler: progress is inferred from
matching substrings in the worker's log line; a line matching no marker leaves
the record unchanged. -/
def handleStdout (j : CrawlJob) (message : String) : CrawlJob :=
  if containsSubstr message "Crawling AWS Blogs" then
    { j with progress := 25, message := "Crawling AWS Blogs..." }
  else if containsSubstr message "Crawling AWS YouTube" then
    { j with progress := 50, message := "Crawling YouTube videos..." }
  else if containsSubstr message "Crawling AWS Documentation" then
    { j with progress := 75, message := "Crawling AWS Documentation..." }
  else if containsSubstr message "Processing content" then
    { j with progress := 90, message := "Processing content with AI..." }
  else j

/-- The milestone value (if any) that the stdout handler assigns for a log line. -/
def markerValue (message : String) : Option Nat :=
  if containsSubstr message "Crawling AWS Blogs" then some 25
  else if containsSubstr message "Crawling AWS YouTube" then some 50
  else if containsSubstr message "Crawling AWS Documentation" then some 75
  else if containsSubstr message "Processing content" then some 90
  else none

/-- The `pythonProcess.on("close")` handler: exit code 0 completes the job at
progress 100 with the hard-coded all-zero stats bundle (the route carries a TODO
to parse real stats); any other exit code fails the job and resets progress to 0. -/
def handleClose (j : CrawlJob) (code : Int) : CrawlJob :=
  if code = 0 then
    { j with
        status := .completed
        progress := 100
        message := "Crawl completed successfully!"
        stats := some { total_processed := 0, successful := 0, failed := 0, duplicates := 0 } }
  else
    { j with
        status := .failed
        progress := 0
        message := "Crawl failed"
        error := some ("Process exited with code " ++ toString code) }

/-- Job states reachable through the route's event handlers under Node's stream
semantics: stdout data events and the single close event fire only while the
job is still in its running phase (all stdout events precede close, close fires
once). -/
inductive Reachable : CrawlJob → Prop
  | init (jobId operation : String) : Reachable (initJob jobId operation)
  | stdout (j : CrawlJob) (msg : String) :
      Reachable j → j.status = .running → Reachable (handleStdout j msg)
  | close (j : CrawlJob) (code : Int) :
      Reachable j → j.status = .running → Reachable (handleClose j code)

/-! Section: The in-memory job store (the `activeCrawls : Map<string, ...>`) -/

/-- The module-level `activeCrawls` map, as an association list keyed by job id. -/
abbrev JobStore := List (String × CrawlJob)

/-- `Map.prototype.get`. -/
def storeGet (s : JobStore) (k : String) : Option CrawlJob :=
  match s with
  | [] => none
  | (k', v) :: rest => if k' = k then some v else storeGet rest k

/-- `Map.prototype.set`: replaces the value of an existing key, else appends. -/
def storeSet (s : JobStore) (k : String) (v : CrawlJob) : JobStore :=
  match s with
  | [] => [(k, v)]
  | (k', v') :: rest => if k' = k then (k, v) :: rest else (k', v') :: storeSet rest k v

/-- `Map.prototype.delete`: removes the entry for a key. -/
def storeDelete (s : JobStore) (k : String) : JobStore :=
  s.filter (fun p => !(p.fst == k))

/-- Retention: the close handler schedules `activeCrawls.delete(jobId)` with
`setTimeout(..., 10 * 60 * 1000)`. -/
def purgeDelayMs : Nat := 10 * 60 * 1000

/-- The store entry for a job whose worker closed at time `tClose` (ms), observed
at time `t`: the close handler has written the terminal record, and the purge
timer deletes it `purgeDelayMs` after the close. -/
def storeAfterClose (store : JobStore) (jid : String) (j : CrawlJob) (code : Int)
    (tClose t : Nat) : JobStore :=
  if t < tClose + purgeDelayMs then storeSet store jid (handleClose j code)
  else storeDelete (storeSet store jid (handleClose j code)) jid

/-! Section: Authentication and admin gating (shared by all three routes) -/

/-- The `user_profiles` row selected by the admin check (`email, role` columns,
either of which may be null). -/
structure UserProfile where
  email : Option String
  role : Option String
deriving DecidableEq, Repr

/-- `profile?.role === "admin" || profile?.email?.includes("admin")` with the
JS optional chaining: a missing profile or missing field contributes false. -/
def isAdminOf (profile : Option UserProfile) : Bool :=
  match profile with
  | none => false
  | some p =>
    (p.role == some "admin") ||
      (match p.email with
       | some e => containsSubstr e "admin"
       | none => false)

/-! Section: POST /api/admin/crawl/start -/

/-- Responses of the crawl-start route (the branch taken and its payload). -/
inductive StartResponse
  | unauthorized
  | forbidden
  | invalidOperation
  | started (jobId : String)
deriving DecidableEq, Repr

/-- HTTP status code of each start-route response, from its `NextResponse`. -/
def startHttpCode : StartResponse → Nat
  | .unauthorized => 401
  | .forbidden => 403
  | .invalidOperation => 400
  | .started _ => 200

/-- The POST handler of the start route up to spawning the worker: auth check,
admin check, operation validation, then registration of the new job in
`activeCrawls`. `user` is whether `supabase.auth.getUser()` produced a user with
no error; `newJobId` is the generated uuid; `operation = none` models a missing
field and the empty string is falsy in the `!operation` guard. -/
def startPost (user : Bool) (profile : Option UserProfile) (store : JobStore)
    (newJobId : String) (operation : Option String) : JobStore × StartResponse :=
  if !user then (store, .unauthorized)
  else if !isAdminOf profile then (store, .forbidden)
  else
    match operation with
    | none => (store, .invalidOperation)
    | some op =>
      if op == "" || !(["daily-update", "full-crawl", "process-content"].contains op) then
        (store, .invalidOperation)
      else
        (storeSet store newJobId (initJob newJobId op), .started newJobId)

/-! Section: GET /api/admin/crawl/status -/

/-- Responses of the status route. -/
inductive StatusResponse
  | unauthorized
  | forbidden
  | missingJobId
  | notFound
  | ok (jobId operation : String) (status : JobStatus) (progress : Nat)
      (message : String) (stats : Option CrawlStats) (error : Option String)
deriving DecidableEq, Repr

/-- HTTP status code of each status-route response; the 404 body is the fixed
string "Job not found or expired", independent of the job's outcome. -/
def statusHttpCode : StatusResponse → Nat
  | .unauthorized => 401
  | .forbidden => 403
  | .missingJobId => 400
  | .notFound => 404
  | .ok _ _ _ _ _ _ _ => 200

/-- The GET handler of the status route: auth check, admin check, jobId
extraction (absent or empty is falsy), then a single `crawls.get(jobId)` read.
Every branch returns the store unchanged — the handler performs no write and
never touches the worker process. -/
def statusGet (user : Bool) (profile : Option UserProfile) (store : JobStore)
    (jobId : Option String) : JobStore × StatusResponse :=
  if !user then (store, .unauthorized)
  else if !isAdminOf profile then (store, .forbidden)
  else
    match jobId with
    | none => (store, .missingJobId)
    | some jid =>
      if jid == "" then (store, .missingJobId)
      else
        match storeGet store jid with
        | none => (store, .notFound)
        | some j => (store, .ok j.jobId j.operation j.status j.progress j.message j.stats j.error)

/-! Section: POST /api/admin/crawl/custom -/

/-- The crawler invocation chosen by the route's `switch (type)`. -/
structure Dispatch where
  script : String
  args : List String
deriving DecidableEq, Repr

/-- The `switch (type)` of the custom route; only the three validated type tags
select a crawler (the default branch is unreachable after the includes check). -/
def selectCrawler (ty url : String) : Option Dispatch :=
  if ty == "blog" then some ⟨"crawlers/aws_blogs_crawler.py", ["--url", url]⟩
  else if ty == "video" then some ⟨"crawlers/aws_youtube_crawler.py", ["--video-url", url]⟩
  else if ty == "playlist" then some ⟨"crawlers/aws_youtube_crawler.py", ["--playlist-url", url]⟩
  else none

/-- Outcome of the promise awaited by the custom route. -/
inductive CrawlResult
  | ok (data : String)
  | err (error : String)
deriving DecidableEq, Repr

/-- Observable behaviour of the spawned crawler process for one request:
when (if ever) its close event fires, its exit code and captured streams. -/
structure WorkerBehavior where
  closeAt : Option Nat
  exitCode : Int
  stdoutText : String
  stderrText : String
deriving DecidableEq, Repr

/-- The hard wall-clock timeout of the custom route: `2 * 60 * 1000` ms. -/
def customCrawlTimeoutMs : Nat := 2 * 60 * 1000

/-- The close handler's resolution value: exit code 0 resolves success with the
captured stdout (the route only reshapes it by extracting a JSON block, which
cannot fail the request), any other code resolves failure with stderr or an
exit-code message (JS `stderr || ...`: empty stderr is falsy). -/
def closeResult (w : WorkerBehavior) : CrawlResult :=
  if w.exitCode = 0 then .ok w.stdoutText
  else .err (if w.stderrText == "" then "Process exited with code " ++ toString w.exitCode
             else w.stderrText)

/-- The awaited promise: first resolution wins. If the close event fires before
the timeout timer, its result stands; otherwise the timer's resolution stands. -/
def promiseResult (w : WorkerBehavior) : CrawlResult :=
  match w.closeAt with
  | some t => if t < customCrawlTimeoutMs then closeResult w else .err "Crawl timeout after 2 minutes"
  | none => .err "Crawl timeout after 2 minutes"

/-- When the awaited promise resolves: at the close event if it beats the timer,
else when the timer fires. -/
def resolveTime (w : WorkerBehavior) : Nat :=
  match w.closeAt with
  | some t => min t customCrawlTimeoutMs
  | none => customCrawlTimeoutMs

/-- Whether the timer's `pythonProcess.kill()` terminates a still-live worker
(the timer always fires; the kill only matters if the process has not exited). -/
def killedByTimeout (w : WorkerBehavior) : Bool :=
  match w.closeAt with
  | some t => customCrawlTimeoutMs ≤ t
  | none => true

/-- Responses of the custom-crawl route. -/
inductive CustomResponse
  | unauthorized
  | forbidden
  | missingFields
  | invalidType
  | invalidUrl
  | crawlOk (data : String)
  | crawlError (error : String)
deriving DecidableEq, Repr

/-- HTTP status code of each custom-route response. -/
def customHttpCode : CustomResponse → Nat
  | .unauthorized => 401
  | .forbidden => 403
  | .missingFields => 400
  | .invalidType => 400
  | .invalidUrl => 400
  | .crawlOk _ => 200
  | .crawlError _ => 500

/-- The POST handler of the custom route: auth check, admin check, presence
check on `type`/`url` (empty strings are falsy), type whitelist, URL syntax
check (`new URL(url)`, abstracted as the predicate `urlValid`), crawler
selection, then the awaited worker promise. The first component records which
crawler (if any) was dispatched. -/
def customPost (urlValid : String → Bool) (user : Bool) (profile : Option UserProfile)
    (ty url : Option String) (w : WorkerBehavior) : Option Dispatch × CustomResponse :=
  if !user then (none, .unauthorized)
  else if !isAdminOf profile then (none, .forbidden)
  else
    match ty, url with
    | some t, some u =>
      if t == "" || u == "" then (none, .missingFields)
      else if !(["blog", "video", "playlist"].contains t) then (none, .invalidType)
      else if !urlValid u then (none, .invalidUrl)
      else
        match selectCrawler t u with
        | none => (none, .invalidType)
        | some d =>
          match promiseResult w with
          | .ok data => (some d, .crawlOk data)
          | .err e => (some d, .crawlError e)
    | _, _ => (none, .missingFields)

/-! Section: The content store: `aws_content` and its unique `url` column -/

/-- A row of the `aws_content` table, restricted to the columns the dedup
invariant concerns (`url TEXT NOT NULL UNIQUE` plus representative content
columns). -/
structure ContentRow where
  url : String
  title : String
  content : Option String
  is_processed : Bool
deriving DecidableEq, Repr

/-- Whether a row with this url is already stored. -/
def urlExists (t : List ContentRow) (u : String) : Bool :=
  t.any (fun r => r.url == u)

/-- The table-level invariant guarded by `url TEXT NOT NULL UNIQUE`. -/
def urlsUnique (t : List ContentRow) : Prop :=
  (t.map (fun r => r.url)).Nodup

/-- Models a plain INSERT against the PostgreSQL UNIQUE constraint on
`aws_content.url`: inserting a row whose url is already present is rejected
with a constraint violation, regardless of any in-process check the caller ran. -/
def insertContent (t : List ContentRow) (r : ContentRow) : Except String (List ContentRow) :=
  if urlExists t r.url then .error "duplicate key value violates unique constraint"
  else .ok (t ++ [r])

/-- Modelled from the spec: the Deduplicator's `upsert` (its implementation
lives in the Python `crawling/` tree, which is not part of this snapshot) —
repeated upserts with the same canonical URL update the existing row in place
rather than creating a second row. -/
def upsertContent (t : List ContentRow) (r : ContentRow) : List ContentRow :=
  if urlExists t r.url then t.map (fun x => if x.url == r.url then r else x)
  else t ++ [r]

/-! Section: Helper lemmas -/

lemma handleStdout_status (j : CrawlJob) (msg : String) :
    (handleStdout j msg).status = j.status := by
  unfold handleStdout
  split_ifs <;> rfl

lemma handleStdout_of_marker_none {msg : String} (h : markerValue msg = none)
    (j : CrawlJob) : handleStdout j msg = j := by
  unfold markerValue at h
  unfold handleStdout
  split_ifs at h ⊢ <;> simp_all

lemma handleStdout_progress_of_marker {msg : String} {v : Nat}
    (h : markerValue msg = some v) (j : CrawlJob) :
    (handleStdout j msg).progress = v := by
  unfold markerValue at h
  unfold handleStdout
  split_ifs at h ⊢ <;> simp_all

lemma markerValue_cases {msg : String} {v : Nat} (h : markerValue msg = some v) :
    v = 25 ∨ v = 50 ∨ v = 75 ∨ v = 90 := by
  unfold markerValue at h
  split_ifs at h <;> simp_all

lemma scanl_map_head {α β γ : Type} (f : β → α → β) (g : β → γ) (b : β) (l : List α) :
    ((List.scanl f b l).map g).head? = some (g b) := by
  cases l <;> simp [List.scanl]

/-- Over any worker log whose stage markers appear in non-decreasing milestone
order (starting from the job's current progress), the sequence of progress
values produced by the stdout handler is non-decreasing. -/
lemma progress_chain : ∀ (msgs : List String) (j : CrawlJob),
    List.Chain' (· ≤ ·) (j.progress :: msgs.filterMap markerValue) →
    List.Chain' (· ≤ ·) ((msgs.scanl handleStdout j).map CrawlJob.progress) := by
  intro msgs
  induction msgs with
  | nil =>
    intro j _
    simp [List.scanl]
  | cons msg rest ih =>
    intro j h
    rw [List.scanl_cons]
    simp only [List.singleton_append, List.map_cons]
    rw [List.chain'_cons']
    rcases hm : markerValue msg with _ | v
    · have he : handleStdout j msg = j := handleStdout_of_marker_none hm j
      rw [List.filterMap_cons_none hm] at h
      refine ⟨?_, ?_⟩
      · intro b hb
        rw [scanl_map_head, Option.mem_def, Option.some.injEq] at hb
        rw [← hb, he]
      · exact ih _ (by rwa [he])
    · have hp : (handleStdout j msg).progress = v := handleStdout_progress_of_marker hm j
      rw [List.filterMap_cons_some hm, List.chain'_cons] at h
      refine ⟨?_, ?_⟩
      · intro b hb
        rw [scanl_map_head, Option.mem_def, Option.some.injEq] at hb
        rw [← hb, hp]
        exact h.1
      · exact ih _ (by rw [hp]; exact h.2)

/-- The discrete progress values a running job can show. -/
def milestoneProgress (p : Nat) : Prop :=
  p = 0 ∨ p = 25 ∨ p = 50 ∨ p = 75 ∨ p = 90

lemma reachable_inv {j : CrawlJob} (h : Reachable j) :
    (j.status = .running → milestoneProgress j.progress) ∧
    (j.status = .completed → j.progress = 100) ∧
    (j.status = .failed → j.progress = 0) := by
  induction h with
  | init jobId operation =>
    refine ⟨fun _ => Or.inl rfl, ?_, ?_⟩ <;> intro hc <;> simp [initJob] at hc
  | stdout j msg hR hRun ih =>
    have hs : (handleStdout j msg).status = j.status := handleStdout_status j msg
    refine ⟨?_, ?_, ?_⟩ <;> rw [hs, hRun] <;> intro hc
    · rcases hm : markerValue msg with _ | v
      · rw [handleStdout_of_marker_none hm j]
        exact ih.1 hRun
      · rw [handleStdout_progress_of_marker hm j]
        rcases markerValue_cases hm with h' | h' | h' | h' <;>
          simp [milestoneProgress, h']
    · simp at hc
    · simp at hc
  | close j code hR hRun ih =>
    by_cases hc : code = 0 <;>
      simp [handleClose, hc, milestoneProgress]

lemma reachable_progress_le {j : CrawlJob} (h : Reachable j) : j.progress ≤ 100 := by
  obtain ⟨h1, h2, h3⟩ := reachable_inv h
  cases hs : j.status
  · rcases h1 hs with h' | h' | h' | h' | h' <;> omega
  · have := h2 hs
    omega
  · have := h3 hs
    omega

lemma storeGet_set_self (s : JobStore) (k : String) (v : CrawlJob) :
    storeGet (storeSet s k v) k = some v := by
  induction s with
  | nil => simp [storeSet, storeGet]
  | cons p rest ih =>
    obtain ⟨k', v'⟩ := p
    by_cases h : k' = k <;> simp [storeSet, storeGet, h, ih]

lemma storeGet_delete_self (s : JobStore) (k : String) :
    storeGet (storeDelete s k) k = none := by
  induction s with
  | nil => rfl
  | cons p rest ih =>
    obtain ⟨k', v'⟩ := p
    by_cases h : k' = k <;>
      simp [storeDelete, List.filter_cons, h, storeGet, storeDelete] at ih ⊢ <;>
      simp [ih, storeGet]

lemma urlExists_false_not_mem {t : List ContentRow} {u : String}
    (h : urlExists t u = false) : u ∉ t.map (fun r => r.url) := by
  simp only [urlExists, List.any_eq_false] at h
  intro hmem
  obtain ⟨r, hr, hru⟩ := List.mem_map.mp hmem
  exact absurd (by simp [hru]) (h r hr)

lemma insert_ok_nodup {t : List ContentRow} {r : ContentRow} {t' : List ContentRow}
    (ht : urlsUnique t) (h : insertContent t r = .ok t') : urlsUnique t' := by
  unfold insertContent at h
  split at h
  · simp at h
  next hex =>
    rw [Except.ok.injEq] at h
    subst h
    have hex2 : urlExists t r.url = false := by simpa using hex
    have hnm := urlExists_false_not_mem hex2
    simp only [urlsUnique, List.map_append, List.map_cons, List.map_nil]
    rw [List.nodup_append]
    exact ⟨ht, List.nodup_singleton _, by simpa using hnm⟩

lemma upsert_nodup {t : List ContentRow} (r : ContentRow)
    (ht : urlsUnique t) : urlsUnique (upsertContent t r) := by
  unfold upsertContent
  split
  · have hmap : (t.map (fun x => if x.url == r.url then r else x)).map (fun x => x.url)
        = t.map (fun x => x.url) := by
      rw [List.map_map]
      refine List.map_congr_left (fun x _ => ?_)
      by_cases hx : x.url == r.url
      · simp [hx, Function.comp]
        exact (eq_of_beq hx).symm
      · simp [hx, Function.comp]
    unfold urlsUnique
    rw [hmap]
    exact ht
  next hex =>
    have hex2 : urlExists t r.url = false := by simpa using hex
    have hnm := urlExists_false_not_mem hex2
    simp only [urlsUnique, List.map_append, List.map_cons, List.map_nil]
    rw [List.nodup_append]
    exact ⟨ht, List.nodup_singleton _, by simpa using hnm⟩

/-! Section: Claim theorems -/

/-- Claim C1 (code bug): on normal completion (worker exit code 0) the close
handler does set `status = completed` and `progress = 100`, but it writes the
hard-coded all-zero stats bundle for every job, whatever the run actually
processed — the stats are fixed constants, not the aggregated per-source and
per-processor counters the spec requires (the route's own TODO comment
acknowledges that real stats are not parsed). -/
theorem C1_close_sets_constant_stats (j : CrawlJob) :
    (handleClose j 0).status = .completed ∧
    (handleClose j 0).progress = 100 ∧
    (handleClose j 0).stats =
      some { total_processed := 0, successful := 0, failed := 0, duplicates := 0 } := by
  simp [handleClose]

/-- Claim C2 (counterexample): a job observed at progress 25 while running is
moved by an abnormal close (exit code 1) into the terminal failed state with
progress 0, so the transition into a terminal state lowers progress below a
previously observed value, contrary to the claim as stated. -/
theorem C2_counterexample :
    (handleStdout (initJob "job-1" "daily-update") "Crawling AWS Blogs").status = .running ∧
    (handleStdout (initJob "job-1" "daily-update") "Crawling AWS Blogs").progress = 25 ∧
    (handleClose (handleStdout (initJob "job-1" "daily-update") "Crawling AWS Blogs") 1).status
      = .failed ∧
    ¬((handleStdout (initJob "job-1" "daily-update") "Crawling AWS Blogs").progress ≤
      (handleClose (handleStdout (initJob "job-1" "daily-update") "Crawling AWS Blogs") 1).progress) := by
  decide

/-- Claim C2 (amended): a job's status is monotonic — stdout updates never
change it and a running job's close moves it to completed or failed, never
backward — and the polled progress sequence is non-decreasing while the job
runs, provided the worker emits its stage markers in canonical milestone
order; the completed transition raises progress to 100 (never lowering it),
but the failed transition resets progress to 0, which may be below a
previously observed value. -/
theorem C2_status_monotonic_progress :
    (∀ (j : CrawlJob) (msg : String), (handleStdout j msg).status = j.status) ∧
    (∀ (j : CrawlJob) (code : Int), j.status = .running →
        (handleClose j code).status = .completed ∨ (handleClose j code).status = .failed) ∧
    (∀ (jobId operation : String) (msgs : List String),
        List.Chain' (· ≤ ·) ((initJob jobId operation).progress :: msgs.filterMap markerValue) →
        List.Chain' (· ≤ ·)
          ((msgs.scanl handleStdout (initJob jobId operation)).map CrawlJob.progress)) ∧
    (∀ j : CrawlJob, Reachable j → j.progress ≤ (handleClose j 0).progress) ∧
    (∀ (j : CrawlJob) (code : Int), code ≠ 0 → (handleClose j code).progress = 0) := by
  refine ⟨handleStdout_status, ?_, ?_, ?_, ?_⟩
  · intro j code _
    by_cases hc : code = 0 <;> simp [handleClose, hc]
  · intro jobId operation msgs h
    exact progress_chain msgs _ h
  · intro j hR
    have h100 : (handleClose j 0).progress = 100 := by simp [handleClose]
    rw [h100]
    exact reachable_progress_le hR
  · intro j code hc
    simp [handleClose, hc]

/-- Witness for the amended C2 at a concrete in-order log and concrete closes. -/
theorem C2_status_monotonic_progress_witness :
    List.Chain' (· ≤ ·)
      (((["Crawling AWS Blogs", "Processing content"].scanl handleStdout
          (initJob "job-1" "daily-update"))).map CrawlJob.progress) ∧
    ((handleClose (initJob "job-1" "daily-update") 0).status = .completed ∨
      (handleClose (initJob "job-1" "daily-update") 0).status = .failed) ∧
    (initJob "job-1" "daily-update").progress
      ≤ (handleClose (initJob "job-1" "daily-update") 0).progress ∧
    (handleClose (initJob "job-1" "daily-update") 1).progress = 0 :=
  ⟨C2_status_monotonic_progress.2.2.1 "job-1" "daily-update"
      ["Crawling AWS Blogs", "Processing content"]
      (by
        have hfm : List.filterMap markerValue ["Crawling AWS Blogs", "Processing content"]
            = [25, 90] := by decide
        rw [hfm]
        simp [initJob, List.chain'_cons]),
   C2_status_monotonic_progress.2.1 (initJob "job-1" "daily-update") 0 (by decide),
   C2_status_monotonic_progress.2.2.2.1 (initJob "job-1" "daily-update")
      (Reachable.init "job-1" "daily-update"),
   C2_status_monotonic_progress.2.2.2.2 (initJob "job-1" "daily-update") 1 (by decide)⟩

/-- Claim C3: for an authenticated admin, a status query answers the 404
NotFound response exactly when the job id is absent from the store, and a
job snapshot otherwise; a job that closed at `tClose` is still queryable at
any time before `tClose + purgeDelayMs` and is purged from the store at or
after that bound, after which the query yields the generic NotFound (404)
rather than anything about the job's outcome; the retention window is the
fixed 10 minutes. -/
theorem C3_retention_notfound (profile : Option UserProfile)
    (hAdmin : isAdminOf profile = true) (store : JobStore) (jid : String)
    (hjid : (jid == "") = false) (j : CrawlJob) (code : Int) (tClose t : Nat) :
    (storeGet store jid = none →
      statusGet true profile store (some jid) = (store, .notFound) ∧
      statusHttpCode .notFound = 404) ∧
    (∀ jv, storeGet store jid = some jv →
      statusGet true profile store (some jid) =
        (store, .ok jv.jobId jv.operation jv.status jv.progress jv.message jv.stats jv.error)) ∧
    (t < tClose + purgeDelayMs →
      storeGet (storeAfterClose store jid j code tClose t) jid = some (handleClose j code)) ∧
    (tClose + purgeDelayMs ≤ t →
      storeGet (storeAfterClose store jid j code tClose t) jid = none ∧
      (statusGet true profile (storeAfterClose store jid j code tClose t) (some jid)).snd
        = .notFound) ∧
    purgeDelayMs = 10 * 60 * 1000 := by
  refine ⟨?_, ?_, ?_, ?_, rfl⟩
  · intro h
    exact ⟨by simp [statusGet, hAdmin, hjid, h], rfl⟩
  · intro jv h
    simp [statusGet, hAdmin, hjid, h]
  · intro h
    simp [storeAfterClose, h, storeGet_set_self]
  · intro h
    have hn : ¬t < tClose + purgeDelayMs := by omega
    have h1 : storeGet (storeAfterClose store jid j code tClose t) jid = none := by
      simp [storeAfterClose, hn, storeGet_delete_self]
    exact ⟨h1, by simp [statusGet, hAdmin, hjid, h1]⟩

/-- Witness for C3: an unknown id on an empty store is NotFound, and the
store entry of a job closed at time 0 is gone at the 10-minute mark. -/
theorem C3_retention_notfound_witness :
    statusGet true (some ⟨some "admin@example.com", some "admin"⟩) []
      (some "job-1") = ([], .notFound) ∧
    storeGet
      (storeAfterClose [] "job-1" (initJob "job-1" "full-crawl") 0 0 600000) "job-1" = none :=
  ⟨((C3_retention_notfound (some ⟨some "admin@example.com", some "admin"⟩) (by decide)
      [] "job-1" (by decide) (initJob "job-1" "full-crawl") 0 0 600000).1 rfl).1,
   ((C3_retention_notfound (some ⟨some "admin@example.com", some "admin"⟩) (by decide)
      [] "job-1" (by decide) (initJob "job-1" "full-crawl") 0 0 600000).2.2.2.1
      (by decide)).1⟩

/-- Claim C4: for an authenticated admin, the start endpoint answers a 400
bad-request and registers no job when the operation is missing or not one of
daily-update, full-crawl, process-content; for each of the three recognized
operations it registers a new job with status running and progress 0 under the
freshly generated id and returns that id. -/
theorem C4_start_validation (profile : Option UserProfile)
    (hAdmin : isAdminOf profile = true) (store : JobStore) (newJobId : String)
    (operation : Option String) :
    (operation = none →
      startPost true profile store newJobId operation = (store, .invalidOperation)) ∧
    (∀ op, operation = some op →
      op ∉ (["daily-update", "full-crawl", "process-content"] : List String) →
      startPost true profile store newJobId operation = (store, .invalidOperation)) ∧
    startHttpCode .invalidOperation = 400 ∧
    (∀ op, operation = some op →
      op ∈ (["daily-update", "full-crawl", "process-content"] : List String) →
      startPost true profile store newJobId operation =
        (storeSet store newJobId (initJob newJobId op), .started newJobId) ∧
      storeGet (startPost true profile store newJobId operation).fst newJobId =
        some (initJob newJobId op) ∧
      (initJob newJobId op).status = .running ∧
      (initJob newJobId op).progress = 0) := by
  refine ⟨?_, ?_, rfl, ?_⟩
  · rintro rfl
    simp [startPost, hAdmin]
  · rintro op rfl hmem
    have h1 : ¬op = "daily-update" := fun h => hmem (by simp [h])
    have h2 : ¬op = "full-crawl" := fun h => hmem (by simp [h])
    have h3 : ¬op = "process-content" := fun h => hmem (by simp [h])
    simp [startPost, hAdmin, h1, h2, h3]
  · rintro op rfl hmem
    have hmem' : op = "daily-update" ∨ op = "full-crawl" ∨ op = "process-content" := by
      simpa using hmem
    rcases hmem' with rfl | rfl | rfl <;>
      exact ⟨by simp [startPost, hAdmin], by simp [startPost, hAdmin, storeGet_set_self],
        rfl, rfl⟩

/-- Witness for C4: a bogus operation is rejected on an unchanged store and a
recognized one registers a running job at progress 0. -/
theorem C4_start_validation_witness :
    startPost true (some ⟨some "admin@example.com", some "admin"⟩) [] "id-1"
      (some "drop-tables") = ([], .invalidOperation) ∧
    startPost true (some ⟨some "admin@example.com", some "admin"⟩) [] "id-1"
      (some "daily-update") =
      (storeSet [] "id-1" (initJob "id-1" "daily-update"), .started "id-1") :=
  ⟨(C4_start_validation (some ⟨some "admin@example.com", some "admin"⟩) (by decide)
      [] "id-1" (some "drop-tables")).2.1 "drop-tables" rfl (by decide),
   ((C4_start_validation (some ⟨some "admin@example.com", some "admin"⟩) (by decide)
      [] "id-1" (some "daily-update")).2.2.2 "daily-update" rfl (by decide)).1⟩

/-- Claim C5: an ad-hoc crawl whose worker does not close within the hard
2-minute wall-clock timeout resolves as a failure carrying the timeout error,
the worker is forcibly killed by the timeout timer, and the request resolves
exactly at the timeout bound — never later — which is `2 * 60 * 1000` ms; for
an authenticated admin with a valid blog request this surfaces as the 500
crawlError response carrying the timeout message. -/
theorem C5_timeout (w : WorkerBehavior)
    (h : ∀ t, w.closeAt = some t → customCrawlTimeoutMs ≤ t) :
    promiseResult w = .err "Crawl timeout after 2 minutes" ∧
    killedByTimeout w = true ∧
    resolveTime w = customCrawlTimeoutMs ∧
    (∀ w' : WorkerBehavior, resolveTime w' ≤ customCrawlTimeoutMs) ∧
    customCrawlTimeoutMs = 2 * 60 * 1000 ∧
    (∀ (urlValid : String → Bool) (profile : Option UserProfile) (u : String),
      isAdminOf profile = true → (u == "") = false → urlValid u = true →
      customPost urlValid true profile (some "blog") (some u) w =
        (some ⟨"crawlers/aws_blogs_crawler.py", ["--url", u]⟩,
          .crawlError "Crawl timeout after 2 minutes") ∧
      customHttpCode (.crawlError "Crawl timeout after 2 minutes") = 500) := by
  have hres : promiseResult w = .err "Crawl timeout after 2 minutes" := by
    rcases hw : w.closeAt with _ | t
    · simp [promiseResult, hw]
    · have ht := h t hw
      have hn : ¬t < customCrawlTimeoutMs := by omega
      simp [promiseResult, hw, hn]
  refine ⟨hres, ?_, ?_, ?_, rfl, ?_⟩
  · rcases hw : w.closeAt with _ | t
    · simp [killedByTimeout, hw]
    · simp [killedByTimeout, hw]
      exact h t hw
  · rcases hw : w.closeAt with _ | t
    · simp [resolveTime, hw]
    · simp [resolveTime, hw]
      exact h t hw
  · intro w'
    rcases hw : w'.closeAt with _ | t
    · simp [resolveTime, hw]
    · simp [resolveTime, hw]
  · intro urlValid profile u hAdmin hu hv
    refine ⟨?_, rfl⟩
    simp [customPost, hAdmin, hu, hv, selectCrawler, hres]

/-- Witness for C5: a worker that never closes is timed out. -/
theorem C5_timeout_witness :
    promiseResult ⟨none, 0, "", ""⟩ = .err "Crawl timeout after 2 minutes" ∧
    killedByTimeout ⟨none, 0, "", ""⟩ = true ∧
    resolveTime ⟨none, 0, "", ""⟩ = customCrawlTimeoutMs ∧
    customCrawlTimeoutMs = 2 * 60 * 1000 :=
  have h := C5_timeout ⟨none, 0, "", ""⟩ (fun t ht => Option.noConfusion ht)
  ⟨h.1, h.2.1, h.2.2.1, h.2.2.2.2.1⟩

/-- Claim C6: starting from a table whose urls are pairwise distinct, a
successful INSERT preserves the uniqueness invariant, an INSERT whose url is
already present is rejected by the store-level unique constraint (even when an
in-process duplicate check raced and the caller attempted the insert anyway),
and the Deduplicator's upsert never creates a second row for an existing url. -/
theorem C6_url_unique (t : List ContentRow) (r : ContentRow) (ht : urlsUnique t) :
    (∀ t', insertContent t r = .ok t' → urlsUnique t') ∧
    (urlExists t r.url = true →
      insertContent t r = .error "duplicate key value violates unique constraint") ∧
    urlsUnique (upsertContent t r) :=
  ⟨fun _ h => insert_ok_nodup ht h,
   fun h => by simp [insertContent, h],
   upsert_nodup r ht⟩

/-- Witness for C6: a raced duplicate insert is rejected and the upsert of an
existing url leaves the table duplicate-free. -/
theorem C6_url_unique_witness :
    insertContent [⟨"https://a.example/post", "A", none, false⟩]
        ⟨"https://a.example/post", "B", none, true⟩
      = .error "duplicate key value violates unique constraint" ∧
    urlsUnique (upsertContent [⟨"https://a.example/post", "A", none, false⟩]
        ⟨"https://a.example/post", "B", none, true⟩) :=
  ⟨(C6_url_unique [⟨"https://a.example/post", "A", none, false⟩]
      ⟨"https://a.example/post", "B", none, true⟩ (by simp [urlsUnique])).2.1 (by decide),
   (C6_url_unique [⟨"https://a.example/post", "A", none, false⟩]
      ⟨"https://a.example/post", "B", none, true⟩ (by simp [urlsUnique])).2.2⟩

/-- Claim C7: for an authenticated admin, the custom-crawl request is rejected
with a 400 bad-request — and no crawler is dispatched — when `type` or `url`
is missing or empty, when `type` is not one of blog, video, playlist, or when
the url fails the syntactic URL check; when all are valid, exactly the crawler
matching the type is dispatched for that single URL (blog → the blogs crawler
with `--url`, video/playlist → the youtube crawler with `--video-url` /
`--playlist-url`) and the caller receives either the parsed result or a
structured error, according to the worker's outcome. -/
theorem C7_custom_validation (urlValid : String → Bool) (profile : Option UserProfile)
    (hAdmin : isAdminOf profile = true) (ty url : Option String) (w : WorkerBehavior) :
    ((ty = none ∨ url = none) →
      customPost urlValid true profile ty url w = (none, .missingFields) ∧
      customHttpCode .missingFields = 400) ∧
    (∀ t u, ty = some t → url = some u → ((t == "") = true ∨ (u == "") = true) →
      customPost urlValid true profile ty url w = (none, .missingFields)) ∧
    (∀ t u, ty = some t → url = some u → (t == "") = false → (u == "") = false →
      t ∉ (["blog", "video", "playlist"] : List String) →
      customPost urlValid true profile ty url w = (none, .invalidType) ∧
      customHttpCode .invalidType = 400) ∧
    (∀ t u, ty = some t → url = some u → (t == "") = false → (u == "") = false →
      t ∈ (["blog", "video", "playlist"] : List String) → urlValid u = false →
      customPost urlValid true profile ty url w = (none, .invalidUrl) ∧
      customHttpCode .invalidUrl = 400) ∧
    (∀ u, selectCrawler "blog" u = some ⟨"crawlers/aws_blogs_crawler.py", ["--url", u]⟩ ∧
      selectCrawler "video" u = some ⟨"crawlers/aws_youtube_crawler.py", ["--video-url", u]⟩ ∧
      selectCrawler "playlist" u
        = some ⟨"crawlers/aws_youtube_crawler.py", ["--playlist-url", u]⟩) ∧
    (∀ t u, ty = some t → url = some u → (u == "") = false →
      t ∈ (["blog", "video", "playlist"] : List String) → urlValid u = true →
      (customPost urlValid true profile ty url w).fst = selectCrawler t u ∧
      (selectCrawler t u).isSome = true ∧
      ((∃ data, promiseResult w = .ok data ∧
          (customPost urlValid true profile ty url w).snd = .crawlOk data) ∨
       (∃ e, promiseResult w = .err e ∧
          (customPost urlValid true profile ty url w).snd = .crawlError e))) := by
  refine ⟨?_, ?_, ?_, ?_, ?_, ?_⟩
  · rintro (rfl | rfl)
    · exact ⟨by rcases url with _ | u <;> simp [customPost, hAdmin], rfl⟩
    · exact ⟨by rcases ty with _ | t <;> simp [customPost, hAdmin], rfl⟩
  · rintro t u rfl rfl hemp
    rcases hemp with h | h <;> simp [customPost, hAdmin, h]
  · rintro t u rfl rfl ht hu hmem
    have h1 : ¬t = "blog" := fun h => hmem (by simp [h])
    have h2 : ¬t = "video" := fun h => hmem (by simp [h])
    have h3 : ¬t = "playlist" := fun h => hmem (by simp [h])
    exact ⟨by simp [customPost, hAdmin, ht, hu, h1, h2, h3], rfl⟩
  · rintro t u rfl rfl ht hu hmem hv
    have hmem' : t = "blog" ∨ t = "video" ∨ t = "playlist" := by simpa using hmem
    rcases hmem' with rfl | rfl | rfl <;>
      exact ⟨by simp [customPost, hAdmin, hu, hv], rfl⟩
  · intro u
    exact ⟨rfl, rfl, rfl⟩
  · rintro t u rfl rfl hu hmem hv
    have hmem' : t = "blog" ∨ t = "video" ∨ t = "playlist" := by simpa using hmem
    rcases hmem' with rfl | rfl | rfl <;>
      rcases hres : promiseResult w with data | e <;>
      refine ⟨by simp [customPost, hAdmin, hu, hv, selectCrawler, hres],
        by simp [selectCrawler], ?_⟩ <;>
      first
        | exact Or.inl ⟨_, rfl, by simp [customPost, hAdmin, hu, hv, selectCrawler, hres]⟩
        | exact Or.inr ⟨_, rfl, by simp [customPost, hAdmin, hu, hv, selectCrawler, hres]⟩

/-- Witness for C7: a disallowed type tag is rejected without dispatch, and a
valid playlist request dispatches exactly the youtube crawler. -/
theorem C7_custom_validation_witness :
    customPost (fun _ => true) true (some ⟨some "admin@example.com", some "admin"⟩)
      (some "docs") (some "https://x.example/") ⟨some 10, 0, "out", ""⟩
      = (none, .invalidType) ∧
    (customPost (fun _ => true) true (some ⟨some "admin@example.com", some "admin"⟩)
      (some "playlist") (some "https://x.example/") ⟨some 10, 0, "out", ""⟩).fst
      = selectCrawler "playlist" "https://x.example/" :=
  ⟨((C7_custom_validation (fun _ => true) (some ⟨some "admin@example.com", some "admin"⟩)
      (by decide) (some "docs") (some "https://x.example/") ⟨some 10, 0, "out", ""⟩).2.2.1
      "docs" "https://x.example/" rfl rfl (by decide) (by decide) (by decide)).1,
   ((C7_custom_validation (fun _ => true) (some ⟨some "admin@example.com", some "admin"⟩)
      (by decide) (some "playlist") (some "https://x.example/") ⟨some 10, 0, "out", ""⟩).2.2.2.2.2
      "playlist" "https://x.example/" rfl rfl (by decide) (by decide) rfl).1⟩

/-- Claim C8: the status query is a pure read of the job store — for every
caller and every store it returns the store unchanged (no job record and no
set of stored jobs is modified), and its response depends on nothing but the
single `get(jobId)` lookup, so it neither waits on nor interacts with the
running job's worker. -/
theorem C8_status_pure_read (user : Bool) (profile : Option UserProfile)
    (store : JobStore) (jobId : Option String) :
    (statusGet user profile store jobId).fst = store ∧
    (∀ store' : JobStore,
      (∀ jid, jobId = some jid → storeGet store jid = storeGet store' jid) →
      (statusGet user profile store jobId).snd = (statusGet user profile store' jobId).snd) := by
  constructor
  · unfold statusGet
    repeat' split
    all_goals rfl
  · intro store' hsame
    rcases jobId with _ | jid
    · cases user <;> cases hA : isAdminOf profile <;> simp [statusGet, hA]
    · have hg : storeGet store jid = storeGet store' jid := hsame jid rfl
      cases user <;> cases hA : isAdminOf profile <;>
        cases hjid : (jid == "") <;>
        cases hG : storeGet store' jid <;>
          simp [statusGet, hA, hjid, hg, hG]

/-- Witness for C8: a concrete query leaves the store untouched and two stores
agreeing on the queried id get the same response. -/
theorem C8_status_pure_read_witness :
    (statusGet true (some ⟨some "admin@example.com", some "admin"⟩)
      [("job-1", initJob "job-1" "daily-update")] (some "job-1")).fst
      = [("job-1", initJob "job-1" "daily-update")] ∧
    (statusGet true (some ⟨some "admin@example.com", some "admin"⟩)
      [("job-1", initJob "job-1" "daily-update")] (some "job-1")).snd
      = (statusGet true (some ⟨some "admin@example.com", some "admin"⟩)
          [("job-1", initJob "job-1" "daily-update"), ("job-2", initJob "job-2" "full-crawl")]
          (some "job-1")).snd :=
  ⟨(C8_status_pure_read true (some ⟨some "admin@example.com", some "admin"⟩)
      [("job-1", initJob "job-1" "daily-update")] (some "job-1")).1,
   (C8_status_pure_read true (some ⟨some "admin@example.com", some "admin"⟩)
      [("job-1", initJob "job-1" "daily-update")] (some "job-1")).2
      [("job-1", initJob "job-1" "daily-update"), ("job-2", initJob "job-2" "full-crawl")]
      (fun jid h => by rw [Option.some.injEq] at h; subst h; decide)⟩

/-- Claim C9: in every job state reachable through the route's event handlers,
a running job's progress is one of the discrete milestones 0, 25, 50, 75, 90;
progress 100 occurs only in the completed status; and a failed job has
progress 0. -/
theorem C9_progress_milestones (j : CrawlJob) (h : Reachable j) :
    (j.status = .running →
      j.progress = 0 ∨ j.progress = 25 ∨ j.progress = 50 ∨ j.progress = 75 ∨ j.progress = 90) ∧
    (j.progress = 100 → j.status = .completed) ∧
    (j.status = .failed → j.progress = 0) := by
  obtain ⟨h1, h2, h3⟩ := reachable_inv h
  refine ⟨fun hr => h1 hr, ?_, h3⟩
  intro hp
  cases hs : j.status
  · rcases h1 hs with h' | h' | h' | h' | h' <;> omega
  · rfl
  · have := h3 hs
    omega

/-- Witness for C9 on a concrete lifecycle: after the blogs marker the running
job sits at a milestone, and after a clean close the completed job's progress
100 is certified to imply completed status. -/
theorem C9_progress_milestones_witness :
    ((handleStdout (initJob "job-9" "daily-update") "Crawling AWS Blogs").progress = 0 ∨
     (handleStdout (initJob "job-9" "daily-update") "Crawling AWS Blogs").progress = 25 ∨
     (handleStdout (initJob "job-9" "daily-update") "Crawling AWS Blogs").progress = 50 ∨
     (handleStdout (initJob "job-9" "daily-update") "Crawling AWS Blogs").progress = 75 ∨
     (handleStdout (initJob "job-9" "daily-update") "Crawling AWS Blogs").progress = 90) ∧
    (handleClose (handleStdout (initJob "job-9" "daily-update") "Crawling AWS Blogs") 0).status
      = .completed ∧
    (handleClose (handleStdout (initJob "job-9" "daily-update") "Crawling AWS Blogs") 1).progress
      = 0 :=
  have hR1 : Reachable (handleStdout (initJob "job-9" "daily-update") "Crawling AWS Blogs") :=
    Reachable.stdout _ _ (Reachable.init "job-9" "daily-update") rfl
  ⟨(C9_progress_milestones _ hR1).1 (by decide),
   (C9_progress_milestones _ (Reachable.close _ 0 hR1 (by decide))).2.1 (by decide),
   (C9_progress_milestones _ (Reachable.close _ 1 hR1 (by decide))).2.2 (by decide)⟩

/-- Claim C10: every one of the three endpoints answers 401 before doing any
work when the requester is unauthenticated, and 403 when authenticated but not
an admin (profile role admin or profile email containing "admin"); in both
cases the job store is unchanged, no job is created, no status is revealed and
no crawler is dispatched. -/
theorem C10_admin_gating (profile : Option UserProfile) (store : JobStore)
    (newJobId : String) (operation : Option String) (jobId : Option String)
    (urlValid : String → Bool) (ty url : Option String) (w : WorkerBehavior) :
    (startPost false profile store newJobId operation = (store, .unauthorized) ∧
     statusGet false profile store jobId = (store, .unauthorized) ∧
     customPost urlValid false profile ty url w = (none, .unauthorized) ∧
     startHttpCode .unauthorized = 401 ∧
     statusHttpCode .unauthorized = 401 ∧
     customHttpCode .unauthorized = 401) ∧
    (isAdminOf profile = false →
      startPost true profile store newJobId operation = (store, .forbidden) ∧
      statusGet true profile store jobId = (store, .forbidden) ∧
      customPost urlValid true profile ty url w = (none, .forbidden) ∧
      startHttpCode .forbidden = 403 ∧
      statusHttpCode .forbidden = 403 ∧
      customHttpCode .forbidden = 403) := by
  refine ⟨⟨rfl, rfl, rfl, rfl, rfl, rfl⟩, ?_⟩
  intro hA
  exact ⟨by simp [startPost, hA], by simp [statusGet, hA], by simp [customPost, hA],
    rfl, rfl, rfl⟩

/-- Witness for C10: a signed-in non-admin is refused by all three routes with
nothing created or dispatched. -/
theorem C10_admin_gating_witness :
    startPost true (some ⟨some "bob@example.com", some "user"⟩) [] "id-1"
      (some "daily-update") = ([], .forbidden) ∧
    statusGet true (some ⟨some "bob@example.com", some "user"⟩) [] (some "job-1")
      = ([], .forbidden) ∧
    customPost (fun _ => true) true (some ⟨some "bob@example.com", some "user"⟩)
      (some "blog") (some "https://x.example/") ⟨some 10, 0, "", ""⟩
      = (none, .forbidden) :=
  have h := (C10_admin_gating (some ⟨some "bob@example.com", some "user"⟩) [] "id-1"
    (some "daily-update") (some "job-1") (fun _ => true) (some "blog")
    (some "https://x.example/") ⟨some 10, 0, "", ""⟩).2 (by decide)
  ⟨h.1, h.2.1, h.2.2.1⟩

end CrawlSpec
